import Mathlib

/-!
Verification development for the AuraDB Arrow query-runner subsystem
(`graphdatascience/query_runner/aura_db_arrow_query_runner.py`).

The Python code is shallowly embedded as follows:

* Python dicts used as parameter maps become association lists
  (`Params`) with insertion-order-preserving update (`setKey`) and
  lookup (`getKey?`), mirroring `d[k] = v` and `d[k]`.
* Python values stored in parameter maps become the inductive `Value`;
  response-header values (which may additionally be lists or `None`)
  become `HeaderVal`.
* Exceptions become `Except`/error sum results; where the original
  mutates an object before an exception can escape, the embedding
  returns the mutated state alongside the error so that the
  caller-visible after-state is preserved.
* The Arrow flight client handshake (`authenticate_basic_token`
  followed by reading the intercepting middleware) is modelled by an
  environment `Env` supplying the `AuthPair` produced by the n-th
  handshake performed on the client, together with the delegate
  (`fallback_query_runner`) as a result oracle.
-/

namespace AuraDbArrow

/-- Values stored in a call's parameter map (Python dict values as used
on this code path: strings, ints, booleans, and nested dicts). -/
inductive Value where
  | str (s : String)
  | int (n : Int)
  | bool (b : Bool)
  | obj (fields : List (String × Value))

/-- A parameter map: a Python dict embedded as an association list in
insertion order. -/
abbrev Params := List (String × Value)

/-- Lookup `m[k]`, returning `none` when the key is absent. -/
def getKey? : Params → String → Option Value
  | [], _ => Option.none
  | (k', v') :: rest, k => if k' = k then some v' else getKey? rest k

/-- Update `m[k] = v`: replaces the value in place when the key exists,
appends otherwise (Python dict assignment semantics). -/
def setKey : Params → String → Value → Params
  | [], k, v => [(k, v)]
  | (k', v') :: rest, k, v =>
      if k' = k then (k, v) :: rest else (k', v') :: setKey rest k v

theorem getKey?_setKey_self (m : Params) (k : String) (v : Value) :
    getKey? (setKey m k v) k = some v := by
  induction m with
  | nil => simp [setKey, getKey?]
  | cons hd tl ih =>
      obtain ⟨k', v'⟩ := hd
      by_cases h : k' = k
      · simp [setKey, getKey?, h]
      · simp [setKey, getKey?, h, ih]

theorem getKey?_setKey_ne (m : Params) (k k' : String) (v : Value)
    (h : k' ≠ k) : getKey? (setKey m k v) k' = getKey? m k' := by
  induction m with
  | nil => simp [setKey, getKey?, Ne.symm h]
  | cons hd tl ih =>
      obtain ⟨k0, v0⟩ := hd
      by_cases h0 : k0 = k
      · subst h0
        simp [setKey, getKey?, Ne.symm h]
      · simp [setKey, getKey?, h0, ih]

/-- Split a character list at every occurrence of the separator
character, Python-list style: the empty input yields one empty field,
and n separators yield n+1 fields. -/
def splitOnChar (c : Char) : List Char → List (List Char)
  | [] => [[]]
  | x :: xs =>
      let r := splitOnChar c xs
      if x = c then [] :: r
      else
        match r with
        | [] => [[x]]
        | y :: ys => (x :: y) :: ys

/-- Python `s.split(sep)` for a one-character separator (the only kind
this code path uses: `":"` and `" "`). -/
def pySplit (s : String) (c : Char) : List String :=
  (splitOnChar c s.data).map (fun l => String.mk l)

/-- Join character-list fields with a separator character (inverse of
`splitOnChar` on its own output). -/
def joinChar (c : Char) : List (List Char) → List Char
  | [] => []
  | [x] => x
  | x :: rest => x ++ c :: joinChar c rest

/-- Python `s.split(sep, 1)`: at most one split, at the FIRST separator
occurrence; the remainder keeps any further separators. -/
def pySplitOnce (s : String) (c : Char) : List String :=
  match splitOnChar c s.data with
  | [] => []
  | [x] => [String.mk x]
  | x :: rest => [String.mk x, String.mk (joinChar c rest)]

/-- Python `s.endswith(suffixStr)`. -/
def pyEndsWith (s sufStr : String) : Bool :=
  List.isSuffixOf sufStr.data s.data

/-- Value of a decimal digit character, `none` for non-digits. -/
def digitVal? (c : Char) : Option Nat :=
  if c.isDigit then some (c.toNat - 48) else Option.none

/-- Accumulate a decimal number over the remaining characters; any
non-digit makes the whole parse fail. -/
def digitsToNatAux (acc : Nat) : List Char → Option Nat
  | [] => some acc
  | c :: cs =>
      match digitVal? c with
      | some d => digitsToNatAux (acc * 10 + d) cs
      | Option.none => Option.none

/-- Parse a non-empty all-digit character list as a natural number. -/
def digitsToNat? : List Char → Option Nat
  | [] => Option.none
  | l => digitsToNatAux 0 l

/-- Strip leading and trailing whitespace. -/
def trimChars (l : List Char) : List Char :=
  ((l.dropWhile Char.isWhitespace).reverse.dropWhile Char.isWhitespace).reverse

/-- Python `int(s)` on a string: optional surrounding whitespace,
optional sign, decimal digits. (Digit-group underscores are not
modelled; none occur on this code path.) -/
def pyInt? (s : String) : Option Int :=
  match trimChars s.data with
  | '-' :: rest => (digitsToNat? rest).map (fun n => -(n : Int))
  | '+' :: rest => (digitsToNat? rest).map (fun n => (n : Int))
  | t => (digitsToNat? t).map (fun n => (n : Int))

/-! ## Metadata interceptor (`AuthPairInterceptingMiddleware`) -/

/-- Shapes a received header value can take (Python `Any`): a string, a
list of header values, an int, or `None` (absent header). -/
inductive HeaderVal where
  | str (s : String)
  | int (n : Int)
  | list (xs : List HeaderVal)
  | none

/-- Python `str(x)` on a header value. Exact for the scalar shapes;
collection shapes are abstracted to a marker (only scalar shapes occur
on this code path). -/
def pyStr : HeaderVal → String
  | .str s => s
  | .int n => toString n
  | .list _ => "<list>"
  | .none => "None"

/-- Errors the middleware can raise: `ValueError("Incompatible header
format ...")`, `IndexError` from `header[0]` on an empty list,
`AttributeError` from `.split` on a non-string, and `ValueError` from
unpacking a no-space split result into two names. -/
inductive MwError where
  | valueErrorFormat
  | indexError
  | attributeError
  | valueErrorUnpack

/-- `auth_header.split(" ", 1)` unpacked into `(auth_type, token)`. -/
def splitAuthString (s : String) : Except MwError (String × String) :=
  match pySplitOnce s ' ' with
  | [a, t] => Except.ok (a, t)
  | _ => Except.error MwError.valueErrorUnpack

/-- Embedding of `AuthPairInterceptingMiddleware._read_auth_header`:
a list yields its first element (which must then support `.split`), a
string is split directly, anything else raises `ValueError`. -/
def readAuthHeader : HeaderVal → Except MwError (String × String)
  | .list [] => Except.error MwError.indexError
  | .list (.str s :: _) => splitAuthString s
  | .list (_ :: _) => Except.error MwError.attributeError
  | .str s => splitAuthString s
  | _ => Except.error MwError.valueErrorFormat

/-- Embedding of `AuthPairInterceptingMiddleware._read_address_header`. -/
def readAddressHeader : HeaderVal → Except MwError String
  | .list [] => Except.error MwError.indexError
  | .list (x :: _) => Except.ok (pyStr x)
  | .str s => Except.ok s
  | _ => Except.error MwError.valueErrorFormat

/-- Middleware state: `_token` and `_arrow_address`, each `none` until
first assigned (reading an unassigned attribute raises in Python). -/
structure MwState where
  token : Option String
  arrowAddress : Option String

/-- Embedding of `AuthPairInterceptingMiddleware.received_headers`,
applied to the `authorization` and `arrowpluginaddress` header values.
Returns the state after the call plus the raised error, if any; the
token assignment persists even if the subsequent address extraction
raises, mirroring in-place attribute mutation. -/
def received_headers (st : MwState) (authHeader addrHeader : HeaderVal) :
    MwState × Option MwError :=
  match readAuthHeader authHeader with
  | Except.error e => (st, some e)
  | Except.ok (authType, tok) =>
      let st1 := if authType = "Bearer" then { st with token := some tok } else st
      match readAddressHeader addrHeader with
      | Except.error e => (st1, some e)
      | Except.ok addr => ({ st1 with arrowAddress := some addr }, Option.none)

/-! ## Connection info resolution (`AuraDbArrowQueryRunner.__init__`) -/

/-- Errors construction can raise: `RuntimeError` (server not running),
`ConnectionError` (missing listen address), `ValueError` (tuple
unpacking of the split address, or `int()` on a non-numeric port). -/
inductive InitError where
  | runtimeError (msg : String)
  | connectionError (msg : String)
  | valueError (msg : String)

/-- Embedding of `host, port_string = listen_address.split(":")`
followed by `int(port_string)` (used when building the flight
location): requires the address to split on `":"` into exactly two
parts and the second to parse as an integer. -/
def resolveListenAddress (la : String) : Except InitError (String × Int) :=
  match pySplit la ':' with
  | [host, portString] =>
      match pyInt? portString with
      | some p => Except.ok (host, p)
      | Option.none => Except.error (InitError.valueError "invalid literal for int")
  | _ => Except.error (InitError.valueError "values to unpack")

/-- The single-row result of `internal.arrow.status`: the `running`
field (a boolean, possibly absent) and `advertisedListenAddress`
(a string, possibly absent). -/
structure ArrowInfo where
  running : Option Bool
  advertisedListenAddress : Option String

/-- The connection target derived at construction. -/
structure ResolvedTarget where
  host : String
  port : Int
  encrypted : Bool

/-- Embedding of the status-checking part of
`AuraDbArrowQueryRunner.__init__`: `if not arrow_info.get("running")`
raises `RuntimeError` naming the endpoint; a missing (or empty, hence
falsy) `advertisedListenAddress` raises `ConnectionError`; then the
address is split into host and integer port. -/
def auraDbInit (auraDbEndpoint : String) (info : ArrowInfo) (encrypted : Bool) :
    Except InitError ResolvedTarget :=
  if info.running = some true then
    match info.advertisedListenAddress with
    | Option.none =>
        Except.error (InitError.connectionError "Did not retrieve connection info from database")
    | some la =>
        if la = "" then
          Except.error (InitError.connectionError "Did not retrieve connection info from database")
        else
          match resolveListenAddress la with
          | Except.error e => Except.error e
          | Except.ok (h, p) => Except.ok ⟨h, p, encrypted⟩
  else
    Except.error (InitError.runtimeError
      ("The Arrow Server is not running at `" ++ auraDbEndpoint ++ "`"))

/-! ## `close` -/

/-- Embedding of `AuraDbArrowQueryRunner.close`:
`self._client.close()` then `self._fallback_query_runner.close()`,
as sequential statements under exception semantics. The two inputs are
the outcomes the two underlying `close` operations would have if
invoked; the result is the overall outcome together with two flags
recording whether the transport-client close and the delegate close
were actually attempted. -/
def close {ε : Type} (clientClose delegateClose : Except ε Unit) :
    Except ε Unit × Bool × Bool :=
  match clientClose with
  | Except.error e => (Except.error e, true, false)
  | Except.ok _ =>
      match delegateClose with
      | Except.error e => (Except.error e, true, true)
      | Except.ok _ => (Except.ok (), true, true)

/-! ## Bridging call dispatcher (`AuraDbArrowQueryRunner.call_endpoint`) -/

/-- `AuraDbArrowQueryRunner.GDS_REMOTE_PROJECTION_PROC_NAME`. -/
def GDS_REMOTE_PROJECTION_PROC_NAME : String := "gds.graph.project.remoteDb"

/-- The `AuthPair` read from the intercepting middleware right after a
handshake: `(token, arrow address)`. -/
structure Handshake where
  token : String
  address : String

/-- The full argument tuple the delegate's `call_endpoint` receives.
`typeTag` stands for the opaque `EndpointType` value (its enum is
declared outside the shown sources and is passed through unchanged). -/
structure DelegateCall where
  typeTag : Nat
  endpoint : String
  yields : Option (List String)
  body : Option String
  params : Params
  database : Option String
  customError : Bool

/-- Observable interactions a single dispatch performs, in order:
a handshake on the owned flight client (`authenticate_basic_token`
plus the middleware read), the auxiliary `gds.graph.list` procedure
call issued directly on the delegate by `is_remote_projected_graph`,
and the final forwarding call to the delegate's `call_endpoint`. -/
inductive Event where
  | handshake (h : Handshake)
  | graphListLookup (graphName : Value)
  | delegateCall (c : DelegateCall)

/-- Environment of one dispatcher instance: `handshakes n` is the
`AuthPair` produced by the (n+1)-th handshake performed on the owned
flight client; `databaseLocation g` is the squeezed result of
`gds.graph.list(g) YIELD databaseLocation` on the delegate;
`delegateResult` is the delegate's `call_endpoint` as a result oracle. -/
structure Env (α : Type) where
  handshakes : Nat → Handshake
  databaseLocation : Value → String
  delegateResult : DelegateCall → α

/-- Mutable dispatcher-side state across calls: how many handshakes
have been performed on the owned flight client so far. -/
structure DispatchState where
  hsCount : Nat

/-- Errors a dispatch can raise: `KeyError` from `params[k]` on a
missing key, `TypeError` from item assignment on a non-dict `config`
value, `ValueError` from address unpacking or `int()`. -/
inductive CallError where
  | keyError (k : String)
  | typeError
  | valueError (msg : String)

/-- Result of one dispatch. `params` is the content of the
caller-supplied parameter dict AFTER the call (the original mutates it
in place, so this is what the caller observes once dispatch returns,
error or not); `trace` lists the interactions performed before the
call finished. -/
structure CallOutcome (α : Type) where
  result : Except CallError α
  params : Params
  state : DispatchState
  trace : List Event

/-- Embedding of `AuraDbArrowQueryRunner._get_or_request_auth_pair`:
always performs a fresh handshake (`authenticate_basic_token`) and
reads the middleware's token and endpoint. -/
def get_or_request_auth_pair {α : Type} (env : Env α) (st : DispatchState) :
    Handshake × DispatchState :=
  (env.handshakes st.hsCount, ⟨st.hsCount + 1⟩)

/-- Embedding of `AuraDbArrowQueryRunner.is_remote_projected_graph`:
a single `gds.graph.list` procedure call issued DIRECTLY on the
delegate (`self._fallback_query_runner.call_procedure`), so it never
re-enters the dispatcher's own classification. Returns the
classification plus the delegate interaction it performed. -/
def is_remote_projected_graph {α : Type} (env : Env α) (graphName : Value) :
    Bool × List Event :=
  (env.databaseLocation graphName == "remote", [Event.graphListLookup graphName])

/-- Embedding of `AuraDbArrowQueryRunner.call_endpoint`. Mirrors the
source line by line: `params = {}` when absent; the
remote-projection endpoint gets a fresh handshake and the keys
`token`, `host`, `config` injected; a `.write` endpoint consults
`is_remote_projected_graph(params["graph_name"])` and, when remote,
gets a fresh handshake, splits the intercepted address, and adds
`arrowConnectionInfo` inside the existing `config` dict; everything
else is forwarded unchanged. -/
def call_endpoint {α : Type} (env : Env α) (st : DispatchState)
    (encrypted : Bool) (typeTag : Nat) (endpoint : String)
    (yields : Option (List String)) (body : Option String)
    (params? : Option Params) (database : Option String)
    (customError : Bool) : CallOutcome α :=
  let params := params?.getD []
  if GDS_REMOTE_PROJECTION_PROC_NAME = endpoint then
    let hp := get_or_request_auth_pair env st
    let h := hp.1
    let p1 := setKey params "token" (Value.str h.token)
    let p2 := setKey p1 "host" (Value.str h.address)
    let p3 := setKey p2 "config" (Value.obj [("useEncryption", Value.bool encrypted)])
    let dc : DelegateCall := ⟨typeTag, endpoint, yields, body, p3, database, customError⟩
    ⟨Except.ok (env.delegateResult dc), p3, hp.2,
      [Event.handshake h, Event.delegateCall dc]⟩
  else if pyEndsWith endpoint ".write" then
    match getKey? params "graph_name" with
    | Option.none => ⟨Except.error (CallError.keyError "graph_name"), params, st, []⟩
    | some gn =>
        let rp := is_remote_projected_graph env gn
        if rp.1 then
          let hp := get_or_request_auth_pair env st
          let h := hp.1
          match pySplit h.address ':' with
          | [host, portString] =>
              match pyInt? portString with
              | some port =>
                  match getKey? params "config" with
                  | some (Value.obj cfgFields) =>
                      let aci : Value := Value.obj
                        [("hostname", Value.str host), ("port", Value.int port),
                         ("bearerToken", Value.str h.token),
                         ("useEncryption", Value.bool encrypted)]
                      let newCfg := Value.obj (setKey cfgFields "arrowConnectionInfo" aci)
                      let p1 := setKey params "config" newCfg
                      let dc : DelegateCall :=
                        ⟨typeTag, endpoint, yields, body, p1, database, customError⟩
                      ⟨Except.ok (env.delegateResult dc), p1, hp.2,
                        rp.2 ++ [Event.handshake h, Event.delegateCall dc]⟩
                  | some _ =>
                      ⟨Except.error CallError.typeError, params, hp.2,
                        rp.2 ++ [Event.handshake h]⟩
                  | Option.none =>
                      ⟨Except.error (CallError.keyError "config"), params, hp.2,
                        rp.2 ++ [Event.handshake h]⟩
              | Option.none =>
                  ⟨Except.error (CallError.valueError "invalid literal for int"), params, hp.2,
                    rp.2 ++ [Event.handshake h]⟩
          | _ =>
              ⟨Except.error (CallError.valueError "values to unpack"), params, hp.2,
                rp.2 ++ [Event.handshake h]⟩
        else
          let dc : DelegateCall := ⟨typeTag, endpoint, yields, body, params, database, customError⟩
          ⟨Except.ok (env.delegateResult dc), params, st,
            rp.2 ++ [Event.delegateCall dc]⟩
  else
    let dc : DelegateCall := ⟨typeTag, endpoint, yields, body, params, database, customError⟩
    ⟨Except.ok (env.delegateResult dc), params, st, [Event.delegateCall dc]⟩

/-- Does an event record a `gds.graph.list` lookup? -/
def isLookup : Event → Bool
  | Event.graphListLookup _ => true
  | _ => false

/-- Does an event record a handshake on the owned flight client? -/
def isHandshake : Event → Bool
  | Event.handshake _ => true
  | _ => false

/-- Number of `gds.graph.list` lookups in a trace. -/
def countLookups (tr : List Event) : Nat := (tr.filter isLookup).length

/-- Number of handshakes in a trace. -/
def countHandshakes (tr : List Event) : Nat := (tr.filter isHandshake).length

/-! ## Branch characterizations of `call_endpoint` -/

theorem gds_ne_of_write {e : String} (h : pyEndsWith e ".write" = true) :
    GDS_REMOTE_PROJECTION_PROC_NAME ≠ e := by
  intro he
  rw [← he] at h
  have hf : pyEndsWith GDS_REMOTE_PROJECTION_PROC_NAME ".write" = false := rfl
  rw [hf] at h
  exact Bool.noConfusion h

theorem call_endpoint_proj {α : Type} (env : Env α) (st : DispatchState)
    (enc : Bool) (tt : Nat) (y : Option (List String)) (b : Option String)
    (params : Params) (db : Option String) (ce : Bool) :
    call_endpoint env st enc tt GDS_REMOTE_PROJECTION_PROC_NAME y b (some params) db ce =
      ⟨Except.ok (env.delegateResult
          ⟨tt, GDS_REMOTE_PROJECTION_PROC_NAME, y, b,
            setKey (setKey (setKey params "token"
                (Value.str (env.handshakes st.hsCount).token)) "host"
                (Value.str (env.handshakes st.hsCount).address)) "config"
                (Value.obj [("useEncryption", Value.bool enc)]),
            db, ce⟩),
        setKey (setKey (setKey params "token"
            (Value.str (env.handshakes st.hsCount).token)) "host"
            (Value.str (env.handshakes st.hsCount).address)) "config"
            (Value.obj [("useEncryption", Value.bool enc)]),
        ⟨st.hsCount + 1⟩,
        [Event.handshake (env.handshakes st.hsCount),
         Event.delegateCall
           ⟨tt, GDS_REMOTE_PROJECTION_PROC_NAME, y, b,
             setKey (setKey (setKey params "token"
                 (Value.str (env.handshakes st.hsCount).token)) "host"
                 (Value.str (env.handshakes st.hsCount).address)) "config"
                 (Value.obj [("useEncryption", Value.bool enc)]),
             db, ce⟩]⟩ := by
  unfold call_endpoint get_or_request_auth_pair
  simp

theorem call_endpoint_write_local {α : Type} (env : Env α) (st : DispatchState)
    (enc : Bool) (tt : Nat) (endpoint : String) (y : Option (List String))
    (b : Option String) (params : Params) (db : Option String) (ce : Bool)
    (gn : Value)
    (he : pyEndsWith endpoint ".write" = true)
    (hg : getKey? params "graph_name" = some gn)
    (hrem : env.databaseLocation gn ≠ "remote") :
    call_endpoint env st enc tt endpoint y b (some params) db ce =
      ⟨Except.ok (env.delegateResult ⟨tt, endpoint, y, b, params, db, ce⟩),
        params, st,
        [Event.graphListLookup gn,
         Event.delegateCall ⟨tt, endpoint, y, b, params, db, ce⟩]⟩ := by
  have hne := gds_ne_of_write he
  unfold call_endpoint is_remote_projected_graph
  simp [hne, he, hg, hrem]

theorem call_endpoint_write_remote_ok {α : Type} (env : Env α) (st : DispatchState)
    (enc : Bool) (tt : Nat) (endpoint : String) (y : Option (List String))
    (b : Option String) (params : Params) (db : Option String) (ce : Bool)
    (gn : Value) (hostStr portStr : String) (port : Int) (cfgFields : Params)
    (he : pyEndsWith endpoint ".write" = true)
    (hg : getKey? params "graph_name" = some gn)
    (hrem : env.databaseLocation gn = "remote")
    (hsplit : pySplit (env.handshakes st.hsCount).address ':' = [hostStr, portStr])
    (hport : pyInt? portStr = some port)
    (hcfg : getKey? params "config" = some (Value.obj cfgFields)) :
    call_endpoint env st enc tt endpoint y b (some params) db ce =
      ⟨Except.ok (env.delegateResult
          ⟨tt, endpoint, y, b,
            setKey params "config" (Value.obj (setKey cfgFields "arrowConnectionInfo"
              (Value.obj [("hostname", Value.str hostStr), ("port", Value.int port),
                ("bearerToken", Value.str (env.handshakes st.hsCount).token),
                ("useEncryption", Value.bool enc)]))),
            db, ce⟩),
        setKey params "config" (Value.obj (setKey cfgFields "arrowConnectionInfo"
          (Value.obj [("hostname", Value.str hostStr), ("port", Value.int port),
            ("bearerToken", Value.str (env.handshakes st.hsCount).token),
            ("useEncryption", Value.bool enc)]))),
        ⟨st.hsCount + 1⟩,
        [Event.graphListLookup gn,
         Event.handshake (env.handshakes st.hsCount),
         Event.delegateCall
           ⟨tt, endpoint, y, b,
             setKey params "config" (Value.obj (setKey cfgFields "arrowConnectionInfo"
               (Value.obj [("hostname", Value.str hostStr), ("port", Value.int port),
                 ("bearerToken", Value.str (env.handshakes st.hsCount).token),
                 ("useEncryption", Value.bool enc)]))),
             db, ce⟩]⟩ := by
  have hne := gds_ne_of_write he
  unfold call_endpoint is_remote_projected_graph get_or_request_auth_pair
  simp [hne, he, hg, hrem, hsplit, hport, hcfg]

theorem call_endpoint_write_remote_noconfig {α : Type} (env : Env α) (st : DispatchState)
    (enc : Bool) (tt : Nat) (endpoint : String) (y : Option (List String))
    (b : Option String) (params : Params) (db : Option String) (ce : Bool)
    (gn : Value) (hostStr portStr : String) (port : Int)
    (he : pyEndsWith endpoint ".write" = true)
    (hg : getKey? params "graph_name" = some gn)
    (hrem : env.databaseLocation gn = "remote")
    (hsplit : pySplit (env.handshakes st.hsCount).address ':' = [hostStr, portStr])
    (hport : pyInt? portStr = some port)
    (hcfg : getKey? params "config" = Option.none) :
    call_endpoint env st enc tt endpoint y b (some params) db ce =
      ⟨Except.error (CallError.keyError "config"), params, ⟨st.hsCount + 1⟩,
        [Event.graphListLookup gn,
         Event.handshake (env.handshakes st.hsCount)]⟩ := by
  have hne := gds_ne_of_write he
  unfold call_endpoint is_remote_projected_graph get_or_request_auth_pair
  simp [hne, he, hg, hrem, hsplit, hport, hcfg]

/-! ## Claim theorems -/

/-- Claim C1, counterexample: with a transport-client close that
raises, `close` never attempts the delegate's close (the second
component of the flag pair is `false`), contradicting the claim that
both releases are attempted even if the first one fails. -/
theorem c1_close_counterexample :
    (close (Except.error (0 : Nat)) (Except.ok ())).2.2 = false := rfl

/-- Claim C1 (amended): `close` closes the owned transport client and
then the delegate strictly in sequence with no error aggregation: the
transport-client close is always attempted; if it raises, that error
propagates immediately and the delegate's close is NOT attempted; the
delegate's close runs only when the transport-client close succeeded,
and its outcome is then surfaced. -/
theorem c1_close_sequential {ε : Type} (cc dc : Except ε Unit) :
    (close cc dc).2.1 = true ∧
    (∀ e, cc = Except.error e → close cc dc = (Except.error e, true, false)) ∧
    (cc = Except.ok () → (close cc dc).1 = dc ∧ (close cc dc).2.2 = true) := by
  refine ⟨?_, ?_, ?_⟩
  · cases cc with
    | error e => rfl
    | ok u =>
        cases dc with
        | error e => rfl
        | ok u2 => rfl
  · intro e hcc
    subst hcc
    rfl
  · intro hcc
    subst hcc
    cases dc with
    | error e => exact ⟨rfl, rfl⟩
    | ok u2 => exact ⟨rfl, rfl⟩

/-- Claim C1 witness: concrete instance of the amended theorem with a
failing transport-client close. -/
theorem c1_close_sequential_witness :
    close (Except.error (0 : Nat)) (Except.ok ()) = (Except.error 0, true, false) :=
  (c1_close_sequential (Except.error 0) (Except.ok ())).2.1 0 rfl

/-- Claim C2, counterexample: for an address with more than one colon
the claim predicts a split at the LAST colon (host `"10.0.0.5:extra"`,
port `9999`), but the code's `listen_address.split(":")` unpacked into
exactly two names raises `ValueError` instead. -/
theorem c2_resolve_counterexample :
    resolveListenAddress "10.0.0.5:extra:9999" =
      Except.error (InitError.valueError "values to unpack") := rfl

/-- Claim C2 (amended): the resolver splits the advertised listen
address at EVERY colon and requires exactly two parts (so an address
with more than one colon is malformed and fails, rather than splitting
at the last colon); the part before the colon is the host and the part
after must parse as an integer port, else the construction fails. In
particular `"10.0.0.5:9999"` yields host `"10.0.0.5"` and port `9999`. -/
theorem c2_resolve_listen_address :
    resolveListenAddress "10.0.0.5:9999" = Except.ok ("10.0.0.5", 9999) ∧
    (∀ s h p, resolveListenAddress s = Except.ok (h, p) →
      ∃ ps, pySplit s ':' = [h, ps] ∧ pyInt? ps = some p) := by
  refine ⟨rfl, ?_⟩
  intro s h p hok
  unfold resolveListenAddress at hok
  rcases hsp : pySplit s ':' with _ | ⟨a, _ | ⟨bb, _ | ⟨cc, rest⟩⟩⟩ <;>
    rw [hsp] at hok <;> dsimp only at hok
  · exact absurd hok (by simp)
  · exact absurd hok (by simp)
  · rcases hpi : pyInt? bb with _ | q <;> rw [hpi] at hok <;> dsimp only at hok
    · exact absurd hok (by simp)
    · simp only [Except.ok.injEq, Prod.mk.injEq] at hok
      obtain ⟨h1, h2⟩ := hok
      subst h1
      subst h2
      exact ⟨bb, rfl, hpi⟩
  · exact absurd hok (by simp)

/-- Claim C2 witness: concrete instance of the amended theorem at
`"10.0.0.5:9999"`. -/
theorem c2_resolve_listen_address_witness :
    ∃ ps, pySplit "10.0.0.5:9999" ':' = ["10.0.0.5", ps] ∧ pyInt? ps = some 9999 :=
  c2_resolve_listen_address.2 "10.0.0.5:9999" "10.0.0.5" 9999 rfl

/-- Claim C8: the interceptor's authorization handling accepts a single
string or the first element of a list, splits at the FIRST space into
(scheme, credential), stores the credential as the token iff the
scheme is `"Bearer"` (leaving the token slot untouched on scheme
mismatch), and raises for any shape that is neither string nor list.
In particular `["Bearer abc123"]` yields token `"abc123"` and
`"Basic xyz"` leaves the token unset. -/
theorem c8_auth_header_handling :
    (received_headers ⟨Option.none, Option.none⟩
        (HeaderVal.list [HeaderVal.str "Bearer abc123"]) (HeaderVal.str "h:1")).1.token
      = some "abc123" ∧
    (received_headers ⟨Option.none, Option.none⟩
        (HeaderVal.str "Basic xyz") (HeaderVal.str "h:1")).1.token = Option.none ∧
    (received_headers ⟨Option.none, Option.none⟩
        (HeaderVal.str "Basic xyz") (HeaderVal.str "h:1")).2 = Option.none ∧
    readAuthHeader (HeaderVal.str "Bearer a b c") = Except.ok ("Bearer", "a b c") ∧
    (∀ s rest, readAuthHeader (HeaderVal.list (HeaderVal.str s :: rest))
      = readAuthHeader (HeaderVal.str s)) ∧
    (∀ n, readAuthHeader (HeaderVal.int n) = Except.error MwError.valueErrorFormat) ∧
    readAuthHeader HeaderVal.none = Except.error MwError.valueErrorFormat ∧
    (∀ st hdr addr ty tok, readAuthHeader hdr = Except.ok (ty, tok) →
      (received_headers st hdr addr).1.token
        = if ty = "Bearer" then some tok else st.token) := by
  refine ⟨rfl, rfl, rfl, rfl, fun s rest => rfl, fun n => rfl, rfl, ?_⟩
  intro st hdr addr ty tok h
  unfold received_headers
  rw [h]
  by_cases hb : ty = "Bearer" <;>
    rcases hra : readAddressHeader addr with e | a <;>
    simp [hb, hra]

/-- Claim C8 witness: the conditional-storage clause applied at a
concrete Bearer header. -/
theorem c8_auth_header_handling_witness :
    (received_headers ⟨Option.none, Option.none⟩
        (HeaderVal.str "Bearer zz") (HeaderVal.str "a")).1.token
      = if "Bearer" = "Bearer" then some "zz" else (Option.none : Option String) :=
  c8_auth_header_handling.2.2.2.2.2.2.2 ⟨Option.none, Option.none⟩
    (HeaderVal.str "Bearer zz") (HeaderVal.str "a") "Bearer" "zz" rfl

/-- Claim C9: if the status row's `running` field is false or absent,
construction fails with the not-running error whose message names the
queried endpoint (the embedded `RuntimeError`, the spec's
ServiceUnavailable), and no resolved target is produced; if `running`
is true but `advertisedListenAddress` is absent, construction fails
with the missing-connection-info error (the embedded
`ConnectionError`, the spec's ConnectionInfoMissing). -/
theorem c9_init_failure_modes (endpoint : String) (info : ArrowInfo) (enc : Bool) :
    ((info.running = Option.none ∨ info.running = some false) →
      auraDbInit endpoint info enc =
        Except.error (InitError.runtimeError
          ("The Arrow Server is not running at `" ++ endpoint ++ "`"))) ∧
    (info.running = some true → info.advertisedListenAddress = Option.none →
      auraDbInit endpoint info enc =
        Except.error (InitError.connectionError
          "Did not retrieve connection info from database")) := by
  constructor
  · rintro (h | h) <;> simp [auraDbInit, h]
  · intro h1 h2
    simp [auraDbInit, h1, h2]

/-- Claim C9 witness: concrete not-running status row. -/
theorem c9_init_failure_modes_witness :
    auraDbInit "bolt://aura" ⟨some false, some "h:1"⟩ true =
      Except.error (InitError.runtimeError
        ("The Arrow Server is not running at `" ++ "bolt://aura" ++ "`")) :=
  (c9_init_failure_modes "bolt://aura" ⟨some false, some "h:1"⟩ true).1 (Or.inr rfl)

theorem getKey?_proj_token (params : Params) (t a : String) (enc : Bool) :
    getKey? (setKey (setKey (setKey params "token" (Value.str t)) "host" (Value.str a))
      "config" (Value.obj [("useEncryption", Value.bool enc)])) "token"
      = some (Value.str t) := by
  rw [getKey?_setKey_ne _ _ _ _ (by decide), getKey?_setKey_ne _ _ _ _ (by decide),
    getKey?_setKey_self]

theorem getKey?_proj_host (params : Params) (t a : String) (enc : Bool) :
    getKey? (setKey (setKey (setKey params "token" (Value.str t)) "host" (Value.str a))
      "config" (Value.obj [("useEncryption", Value.bool enc)])) "host"
      = some (Value.str a) := by
  rw [getKey?_setKey_ne _ _ _ _ (by decide), getKey?_setKey_self]

theorem getKey?_proj_config (params : Params) (t a : String) (enc : Bool) :
    getKey? (setKey (setKey (setKey params "token" (Value.str t)) "host" (Value.str a))
      "config" (Value.obj [("useEncryption", Value.bool enc)])) "config"
      = some (Value.obj [("useEncryption", Value.bool enc)]) :=
  getKey?_setKey_self _ _ _

/-- Claim C3: every privileged dispatch performs its own fresh
handshake before injecting credentials, on BOTH privileged branches.
For the remote-projection endpoint: the token injected by a call
starting with handshake count n is the one produced by the
environment's n-th handshake, each call's trace starts with its own
handshake and contains exactly one, and two consecutive privileged
calls consume two distinct handshake indices (n, then n+1), never a
cached value. For a privileged write call (a `.write` endpoint on a
remotely projected graph): the call's trace contains exactly one
handshake, that handshake is the one at the call's own starting count
n, the `bearerToken` injected inside `config.arrowConnectionInfo` is
exactly that handshake's token, and the handshake count advances by
one — so any later privileged call uses a strictly fresher index. -/
theorem c3_token_freshness {α : Type} (env : Env α) (st : DispatchState)
    (enc : Bool) (tt : Nat) (y : Option (List String)) (b : Option String)
    (p1 p2 : Params) (db : Option String) (ce : Bool) :
    getKey? (call_endpoint env st enc tt GDS_REMOTE_PROJECTION_PROC_NAME y b
        (some p1) db ce).params "token"
      = some (Value.str (env.handshakes st.hsCount).token) ∧
    countHandshakes (call_endpoint env st enc tt GDS_REMOTE_PROJECTION_PROC_NAME y b
        (some p1) db ce).trace = 1 ∧
    (call_endpoint env st enc tt GDS_REMOTE_PROJECTION_PROC_NAME y b
        (some p1) db ce).trace.head?
      = some (Event.handshake (env.handshakes st.hsCount)) ∧
    getKey? (call_endpoint env
        (call_endpoint env st enc tt GDS_REMOTE_PROJECTION_PROC_NAME y b (some p1) db ce).state
        enc tt GDS_REMOTE_PROJECTION_PROC_NAME y b (some p2) db ce).params "token"
      = some (Value.str (env.handshakes (st.hsCount + 1)).token) ∧
    countHandshakes (call_endpoint env
        (call_endpoint env st enc tt GDS_REMOTE_PROJECTION_PROC_NAME y b (some p1) db ce).state
        enc tt GDS_REMOTE_PROJECTION_PROC_NAME y b (some p2) db ce).trace = 1 ∧
    (call_endpoint env
        (call_endpoint env st enc tt GDS_REMOTE_PROJECTION_PROC_NAME y b (some p1) db ce).state
        enc tt GDS_REMOTE_PROJECTION_PROC_NAME y b (some p2) db ce).state.hsCount
      = st.hsCount + 2 ∧
    (∀ endpoint params2 gn cfgFields hostStr portStr port,
      pyEndsWith endpoint ".write" = true →
      getKey? params2 "graph_name" = some gn →
      env.databaseLocation gn = "remote" →
      pySplit (env.handshakes st.hsCount).address ':' = [hostStr, portStr] →
      pyInt? portStr = some port →
      getKey? params2 "config" = some (Value.obj cfgFields) →
      countHandshakes (call_endpoint env st enc tt endpoint y b
        (some params2) db ce).trace = 1 ∧
      (call_endpoint env st enc tt endpoint y b (some params2) db ce).trace
        = [Event.graphListLookup gn, Event.handshake (env.handshakes st.hsCount),
           Event.delegateCall ⟨tt, endpoint, y, b,
             (call_endpoint env st enc tt endpoint y b (some params2) db ce).params,
             db, ce⟩] ∧
      getKey? (call_endpoint env st enc tt endpoint y b (some params2) db ce).params "config"
        = some (Value.obj (setKey cfgFields "arrowConnectionInfo"
            (Value.obj [("hostname", Value.str hostStr), ("port", Value.int port),
              ("bearerToken", Value.str (env.handshakes st.hsCount).token),
              ("useEncryption", Value.bool enc)]))) ∧
      (call_endpoint env st enc tt endpoint y b (some params2) db ce).state.hsCount
        = st.hsCount + 1) := by
  refine ⟨?_, ?_, ?_, ?_, ?_, ?_, ?_⟩
  · simp [call_endpoint_proj, getKey?_proj_token]
  · simp [call_endpoint_proj, countHandshakes, isHandshake, List.filter]
  · simp [call_endpoint_proj]
  · simp [call_endpoint_proj, getKey?_proj_token]
  · simp [call_endpoint_proj, countHandshakes, isHandshake, List.filter]
  · simp [call_endpoint_proj]
  · intro endpoint params2 gn cfgFields hostStr portStr port he hg hrem hsplit hport hcfg
    rw [call_endpoint_write_remote_ok env st enc tt endpoint y b params2 db ce gn
      hostStr portStr port cfgFields he hg hrem hsplit hport hcfg]
    refine ⟨?_, rfl, getKey?_setKey_self _ _ _, rfl⟩
    simp [countHandshakes, isHandshake, List.filter]

/-- Claim C3 witness: a concrete privileged write call on a remotely
projected graph performs exactly one handshake (its own, at index 0),
injects that handshake's token as the `bearerToken`, and advances the
handshake count to 1. -/
theorem c3_token_freshness_witness :
    countHandshakes (call_endpoint (⟨fun n => ⟨"T" ++ toString n, "h2:5"⟩, fun _ => "remote",
        fun _ => (7 : Nat)⟩ : Env Nat) ⟨0⟩ true 0 "x.write" Option.none Option.none
        (some [("graph_name", Value.str "g"), ("config", Value.obj [("foo", Value.int 1)])])
        Option.none true).trace = 1 ∧
    (call_endpoint (⟨fun n => ⟨"T" ++ toString n, "h2:5"⟩, fun _ => "remote",
        fun _ => (7 : Nat)⟩ : Env Nat) ⟨0⟩ true 0 "x.write" Option.none Option.none
        (some [("graph_name", Value.str "g"), ("config", Value.obj [("foo", Value.int 1)])])
        Option.none true).trace
      = [Event.graphListLookup (Value.str "g"),
         Event.handshake ((⟨fun n => ⟨"T" ++ toString n, "h2:5"⟩, fun _ => "remote",
           fun _ => (7 : Nat)⟩ : Env Nat).handshakes 0),
         Event.delegateCall ⟨0, "x.write", Option.none, Option.none,
           (call_endpoint (⟨fun n => ⟨"T" ++ toString n, "h2:5"⟩, fun _ => "remote",
             fun _ => (7 : Nat)⟩ : Env Nat) ⟨0⟩ true 0 "x.write" Option.none Option.none
             (some [("graph_name", Value.str "g"), ("config", Value.obj [("foo", Value.int 1)])])
             Option.none true).params,
           Option.none, true⟩] ∧
    getKey? (call_endpoint (⟨fun n => ⟨"T" ++ toString n, "h2:5"⟩, fun _ => "remote",
        fun _ => (7 : Nat)⟩ : Env Nat) ⟨0⟩ true 0 "x.write" Option.none Option.none
        (some [("graph_name", Value.str "g"), ("config", Value.obj [("foo", Value.int 1)])])
        Option.none true).params "config"
      = some (Value.obj (setKey [("foo", Value.int 1)] "arrowConnectionInfo"
          (Value.obj [("hostname", Value.str "h2"), ("port", Value.int 5),
            ("bearerToken", Value.str ((⟨fun n => ⟨"T" ++ toString n, "h2:5"⟩, fun _ => "remote",
              fun _ => (7 : Nat)⟩ : Env Nat).handshakes 0).token),
            ("useEncryption", Value.bool true)]))) ∧
    (call_endpoint (⟨fun n => ⟨"T" ++ toString n, "h2:5"⟩, fun _ => "remote",
        fun _ => (7 : Nat)⟩ : Env Nat) ⟨0⟩ true 0 "x.write" Option.none Option.none
        (some [("graph_name", Value.str "g"), ("config", Value.obj [("foo", Value.int 1)])])
        Option.none true).state.hsCount = 0 + 1 :=
  (c3_token_freshness (⟨fun n => ⟨"T" ++ toString n, "h2:5"⟩, fun _ => "remote",
      fun _ => (7 : Nat)⟩ : Env Nat) ⟨0⟩ true 0 Option.none Option.none
    [] [] Option.none true).2.2.2.2.2.2 "x.write"
    [("graph_name", Value.str "g"), ("config", Value.obj [("foo", Value.int 1)])]
    (Value.str "g") [("foo", Value.int 1)] "h2" "5" 5 rfl rfl rfl rfl rfl rfl

/-- Claim C4: a non-privileged endpoint (not the remote-projection
procedure and not a `.write` endpoint) is forwarded verbatim: the
dispatcher's outcome is exactly the delegate's result on the identical
argument tuple, with the identical parameter map (no injected keys),
no state change, and no interaction other than the single delegate
call. -/
theorem c4_ordinary_forwarding {α : Type} (env : Env α) (st : DispatchState)
    (enc : Bool) (tt : Nat) (endpoint : String) (y : Option (List String))
    (b : Option String) (params : Params) (db : Option String) (ce : Bool)
    (h1 : GDS_REMOTE_PROJECTION_PROC_NAME ≠ endpoint)
    (h2 : pyEndsWith endpoint ".write" = false) :
    call_endpoint env st enc tt endpoint y b (some params) db ce =
      ⟨Except.ok (env.delegateResult ⟨tt, endpoint, y, b, params, db, ce⟩),
        params, st, [Event.delegateCall ⟨tt, endpoint, y, b, params, db, ce⟩]⟩ := by
  unfold call_endpoint
  simp [h1, h2]

/-- Claim C4 witness: a concrete stream endpoint is forwarded
untouched. -/
theorem c4_ordinary_forwarding_witness :
    call_endpoint (⟨fun n => ⟨"T" ++ toString n, "h2:5"⟩, fun _ => "local",
        fun _ => (7 : Nat)⟩ : Env Nat) ⟨0⟩ true 0 "gds.pageRank.stream"
        Option.none Option.none (some []) Option.none true =
      ⟨Except.ok 7, [], ⟨0⟩,
        [Event.delegateCall ⟨0, "gds.pageRank.stream", Option.none, Option.none, [],
          Option.none, true⟩]⟩ :=
  c4_ordinary_forwarding _ ⟨0⟩ true 0 "gds.pageRank.stream" Option.none Option.none
    [] Option.none true (by decide) rfl

/-- Claim C5: for a `.write` endpoint (with the graph name present, as
the write-call shape requires), the dispatcher issues the
`gds.graph.list` lookup exactly once per call — as a direct delegate
procedure call, hence with no recursion into privileged handling — and
whenever the reported `databaseLocation` differs from `"remote"` no
handshake occurs and the call is forwarded with the parameter map
unmodified. -/
theorem c5_write_lookup_once {α : Type} (env : Env α) (st : DispatchState)
    (enc : Bool) (tt : Nat) (endpoint : String) (y : Option (List String))
    (b : Option String) (params : Params) (db : Option String) (ce : Bool)
    (gn : Value)
    (he : pyEndsWith endpoint ".write" = true)
    (hg : getKey? params "graph_name" = some gn) :
    countLookups (call_endpoint env st enc tt endpoint y b (some params) db ce).trace = 1 ∧
    (env.databaseLocation gn ≠ "remote" →
      call_endpoint env st enc tt endpoint y b (some params) db ce =
        ⟨Except.ok (env.delegateResult ⟨tt, endpoint, y, b, params, db, ce⟩), params, st,
          [Event.graphListLookup gn,
           Event.delegateCall ⟨tt, endpoint, y, b, params, db, ce⟩]⟩) := by
  have hne := gds_ne_of_write he
  constructor
  · by_cases hrem : env.databaseLocation gn = "remote"
    · rcases hsp : pySplit (env.handshakes st.hsCount).address ':'
        with _ | ⟨a, _ | ⟨bb, _ | ⟨cc, rest⟩⟩⟩
      · simp [call_endpoint, is_remote_projected_graph, get_or_request_auth_pair,
          hne, he, hg, hrem, hsp, countLookups, isLookup, List.filter]
      · simp [call_endpoint, is_remote_projected_graph, get_or_request_auth_pair,
          hne, he, hg, hrem, hsp, countLookups, isLookup, List.filter]
      · rcases hpi : pyInt? bb with _ | q
        · simp [call_endpoint, is_remote_projected_graph, get_or_request_auth_pair,
            hne, he, hg, hrem, hsp, hpi, countLookups, isLookup, List.filter]
        · rcases hcfg : getKey? params "config" with _ | v
          · simp [call_endpoint, is_remote_projected_graph, get_or_request_auth_pair,
              hne, he, hg, hrem, hsp, hpi, hcfg, countLookups, isLookup, List.filter]
          · rcases v with s2 | n2 | b2 | fields <;>
              simp [call_endpoint, is_remote_projected_graph, get_or_request_auth_pair,
                hne, he, hg, hrem, hsp, hpi, hcfg, countLookups, isLookup, List.filter]
      · simp [call_endpoint, is_remote_projected_graph, get_or_request_auth_pair,
          hne, he, hg, hrem, hsp, countLookups, isLookup, List.filter]
    · rw [call_endpoint_write_local env st enc tt endpoint y b params db ce gn he hg hrem]
      simp [countLookups, isLookup, List.filter]
  · intro hrem
    exact call_endpoint_write_local env st enc tt endpoint y b params db ce gn he hg hrem

/-- Claim C5 witness: a `.write` call on a locally-stored graph does
one lookup, no handshake, and forwards unmodified. -/
theorem c5_write_lookup_once_witness :
    countLookups (call_endpoint (⟨fun n => ⟨"T" ++ toString n, "h2:5"⟩, fun _ => "local",
        fun _ => (7 : Nat)⟩ : Env Nat) ⟨0⟩ true 0 "x.write" Option.none Option.none
        (some [("graph_name", Value.str "g")]) Option.none true).trace = 1 ∧
    ((⟨fun n => ⟨"T" ++ toString n, "h2:5"⟩, fun _ => "local",
        fun _ => (7 : Nat)⟩ : Env Nat).databaseLocation (Value.str "g") ≠ "remote" →
      call_endpoint (⟨fun n => ⟨"T" ++ toString n, "h2:5"⟩, fun _ => "local",
          fun _ => (7 : Nat)⟩ : Env Nat) ⟨0⟩ true 0 "x.write" Option.none Option.none
          (some [("graph_name", Value.str "g")]) Option.none true =
        ⟨Except.ok 7, [("graph_name", Value.str "g")], ⟨0⟩,
          [Event.graphListLookup (Value.str "g"),
           Event.delegateCall ⟨0, "x.write", Option.none, Option.none,
             [("graph_name", Value.str "g")], Option.none, true⟩]⟩) :=
  c5_write_lookup_once _ ⟨0⟩ true 0 "x.write" Option.none Option.none
    [("graph_name", Value.str "g")] Option.none true (Value.str "g") rfl rfl

/-- Claim C6: a dispatch of `gds.graph.project.remoteDb` always (for
every prior handshake count) performs a handshake first, then forwards
to the delegate a parameter map holding the injected keys `token`
(that handshake's token), `host` (the intercepted address), and
`config` set to exactly the one-entry object `{useEncryption: flag}`. -/
theorem c6_remote_projection_injection {α : Type} (env : Env α) (st : DispatchState)
    (enc : Bool) (tt : Nat) (y : Option (List String)) (b : Option String)
    (params : Params) (db : Option String) (ce : Bool) :
    getKey? (call_endpoint env st enc tt GDS_REMOTE_PROJECTION_PROC_NAME y b
        (some params) db ce).params "token"
      = some (Value.str (env.handshakes st.hsCount).token) ∧
    getKey? (call_endpoint env st enc tt GDS_REMOTE_PROJECTION_PROC_NAME y b
        (some params) db ce).params "host"
      = some (Value.str (env.handshakes st.hsCount).address) ∧
    getKey? (call_endpoint env st enc tt GDS_REMOTE_PROJECTION_PROC_NAME y b
        (some params) db ce).params "config"
      = some (Value.obj [("useEncryption", Value.bool enc)]) ∧
    (call_endpoint env st enc tt GDS_REMOTE_PROJECTION_PROC_NAME y b
        (some params) db ce).trace
      = [Event.handshake (env.handshakes st.hsCount),
         Event.delegateCall ⟨tt, GDS_REMOTE_PROJECTION_PROC_NAME, y, b,
           (call_endpoint env st enc tt GDS_REMOTE_PROJECTION_PROC_NAME y b
             (some params) db ce).params, db, ce⟩] ∧
    (call_endpoint env st enc tt GDS_REMOTE_PROJECTION_PROC_NAME y b
        (some params) db ce).result
      = Except.ok (env.delegateResult ⟨tt, GDS_REMOTE_PROJECTION_PROC_NAME, y, b,
          (call_endpoint env st enc tt GDS_REMOTE_PROJECTION_PROC_NAME y b
            (some params) db ce).params, db, ce⟩) ∧
    (call_endpoint env st enc tt GDS_REMOTE_PROJECTION_PROC_NAME y b
        (some params) db ce).state.hsCount = st.hsCount + 1 := by
  simp [call_endpoint_proj, getKey?_proj_token, getKey?_proj_host, getKey?_proj_config]

/-- Claim C7: a privileged write call whose parameter map holds a
`config` dict gets, after the handshake and the host:port split of the
intercepted address, a nested `arrowConnectionInfo` object
{hostname, port, bearerToken, useEncryption} added inside that same
`config` with all its other entries preserved, and the call is then
forwarded; when `config` is absent the call raises the missing-key
error (the spec's ContractViolation) with no top-level key injected. -/
theorem c7_write_config_injection {α : Type} (env : Env α) (st : DispatchState)
    (enc : Bool) (tt : Nat) (endpoint : String) (y : Option (List String))
    (b : Option String) (params : Params) (db : Option String) (ce : Bool)
    (gn : Value) (hostStr portStr : String) (port : Int)
    (he : pyEndsWith endpoint ".write" = true)
    (hg : getKey? params "graph_name" = some gn)
    (hrem : env.databaseLocation gn = "remote")
    (hsplit : pySplit (env.handshakes st.hsCount).address ':' = [hostStr, portStr])
    (hport : pyInt? portStr = some port) :
    (∀ cfgFields, getKey? params "config" = some (Value.obj cfgFields) →
      ∃ newFields,
        getKey? (call_endpoint env st enc tt endpoint y b (some params) db ce).params "config"
          = some (Value.obj newFields) ∧
        getKey? newFields "arrowConnectionInfo"
          = some (Value.obj [("hostname", Value.str hostStr), ("port", Value.int port),
              ("bearerToken", Value.str (env.handshakes st.hsCount).token),
              ("useEncryption", Value.bool enc)]) ∧
        (∀ k, k ≠ "arrowConnectionInfo" → getKey? newFields k = getKey? cfgFields k) ∧
        (call_endpoint env st enc tt endpoint y b (some params) db ce).result
          = Except.ok (env.delegateResult ⟨tt, endpoint, y, b,
              (call_endpoint env st enc tt endpoint y b (some params) db ce).params,
              db, ce⟩)) ∧
    (getKey? params "config" = Option.none →
      (call_endpoint env st enc tt endpoint y b (some params) db ce).result
        = Except.error (CallError.keyError "config") ∧
      (call_endpoint env st enc tt endpoint y b (some params) db ce).params = params) := by
  constructor
  · intro cfgFields hcfg
    rw [call_endpoint_write_remote_ok env st enc tt endpoint y b params db ce gn
      hostStr portStr port cfgFields he hg hrem hsplit hport hcfg]
    exact ⟨setKey cfgFields "arrowConnectionInfo"
        (Value.obj [("hostname", Value.str hostStr), ("port", Value.int port),
          ("bearerToken", Value.str (env.handshakes st.hsCount).token),
          ("useEncryption", Value.bool enc)]),
      getKey?_setKey_self _ _ _, getKey?_setKey_self _ _ _,
      fun k hk => getKey?_setKey_ne _ _ _ _ hk, rfl⟩
  · intro hcfg
    rw [call_endpoint_write_remote_noconfig env st enc tt endpoint y b params db ce gn
      hostStr portStr port he hg hrem hsplit hport hcfg]
    exact ⟨rfl, rfl⟩

/-- Claim C7 witness: the contract-violation side, a remote write call
with no `config` entry fails with the missing-key error and leaves the
parameter map without any injected top-level key. -/
theorem c7_write_config_injection_witness :
    (call_endpoint (⟨fun n => ⟨"T" ++ toString n, "h2:5"⟩, fun _ => "remote",
        fun _ => (7 : Nat)⟩ : Env Nat) ⟨0⟩ true 0 "x.write" Option.none Option.none
        (some [("graph_name", Value.str "g")]) Option.none true).result
      = Except.error (CallError.keyError "config") ∧
    (call_endpoint (⟨fun n => ⟨"T" ++ toString n, "h2:5"⟩, fun _ => "remote",
        fun _ => (7 : Nat)⟩ : Env Nat) ⟨0⟩ true 0 "x.write" Option.none Option.none
        (some [("graph_name", Value.str "g")]) Option.none true).params
      = [("graph_name", Value.str "g")] :=
  (c7_write_config_injection (⟨fun n => ⟨"T" ++ toString n, "h2:5"⟩, fun _ => "remote",
      fun _ => (7 : Nat)⟩ : Env Nat) ⟨0⟩ true 0 "x.write" Option.none Option.none
    [("graph_name", Value.str "g")] Option.none true (Value.str "g") "h2" "5" 5
    rfl rfl rfl rfl rfl).2 rfl

/-- Claim C10: the embedding's `CallOutcome.params` is the content of
the caller-supplied dict after dispatch (the code mutates it in
place), so these equalities state that the injected credentials are
visible to the caller once dispatch returns and that the map forwarded
to the delegate is that same mutated map; moreover, on the
remote-projection path a pre-existing `config` entry of ANY value `v`
is replaced wholesale by `{useEncryption: flag}` (never merged), while
on the privileged write path the mutated `config` is likewise what the
caller retains. -/
theorem c10_in_place_param_mutation {α : Type} (env : Env α) (st : DispatchState)
    (enc : Bool) (tt : Nat) (y : Option (List String)) (b : Option String)
    (params : Params) (db : Option String) (ce : Bool) (v : Value)
    (_hc : getKey? params "config" = some v) :
    getKey? (call_endpoint env st enc tt GDS_REMOTE_PROJECTION_PROC_NAME y b
        (some params) db ce).params "config"
      = some (Value.obj [("useEncryption", Value.bool enc)]) ∧
    getKey? (call_endpoint env st enc tt GDS_REMOTE_PROJECTION_PROC_NAME y b
        (some params) db ce).params "token"
      = some (Value.str (env.handshakes st.hsCount).token) ∧
    getKey? (call_endpoint env st enc tt GDS_REMOTE_PROJECTION_PROC_NAME y b
        (some params) db ce).params "host"
      = some (Value.str (env.handshakes st.hsCount).address) ∧
    (call_endpoint env st enc tt GDS_REMOTE_PROJECTION_PROC_NAME y b
        (some params) db ce).trace
      = [Event.handshake (env.handshakes st.hsCount),
         Event.delegateCall ⟨tt, GDS_REMOTE_PROJECTION_PROC_NAME, y, b,
           (call_endpoint env st enc tt GDS_REMOTE_PROJECTION_PROC_NAME y b
             (some params) db ce).params, db, ce⟩] ∧
    (∀ endpoint params2 gn cfgFields hostStr portStr port,
      pyEndsWith endpoint ".write" = true →
      getKey? params2 "graph_name" = some gn →
      env.databaseLocation gn = "remote" →
      pySplit (env.handshakes st.hsCount).address ':' = [hostStr, portStr] →
      pyInt? portStr = some port →
      getKey? params2 "config" = some (Value.obj cfgFields) →
      (call_endpoint env st enc tt endpoint y b (some params2) db ce).trace
        = [Event.graphListLookup gn, Event.handshake (env.handshakes st.hsCount),
           Event.delegateCall ⟨tt, endpoint, y, b,
             (call_endpoint env st enc tt endpoint y b (some params2) db ce).params,
             db, ce⟩]) := by
  refine ⟨?_, ?_, ?_, ?_, ?_⟩
  · simp [call_endpoint_proj, getKey?_proj_config]
  · simp [call_endpoint_proj, getKey?_proj_token]
  · simp [call_endpoint_proj, getKey?_proj_host]
  · simp [call_endpoint_proj]
  · intro endpoint params2 gn cfgFields hostStr portStr port he hg hrem hsplit hport hcfg
    rw [call_endpoint_write_remote_ok env st enc tt endpoint y b params2 db ce gn
      hostStr portStr port cfgFields he hg hrem hsplit hport hcfg]

/-- Claim C10 witness: a pre-existing scalar `config` value is
wholesale-replaced by the nested `{useEncryption: flag}` object in the
caller-visible map. -/
theorem c10_in_place_param_mutation_witness :
    getKey? (call_endpoint (⟨fun n => ⟨"T" ++ toString n, "h2:5"⟩, fun _ => "remote",
        fun _ => (7 : Nat)⟩ : Env Nat) ⟨0⟩ true 0 GDS_REMOTE_PROJECTION_PROC_NAME
        Option.none Option.none (some [("config", Value.str "old")])
        Option.none true).params "config"
      = some (Value.obj [("useEncryption", Value.bool true)]) :=
  (c10_in_place_param_mutation _ ⟨0⟩ true 0 Option.none Option.none
    [("config", Value.str "old")] Option.none true (Value.str "old") rfl).1

end AuraDbArrow
